import Mathlib

/-!
# NeoBin Device Control Core — shallow embedding

A shallow embedding of the NeoBin BLE bin controller (`main.py`): the
authentication gate (`AuthChrc`), the command characteristic (`WriteChrc`),
the read/notify characteristic (`InformChrc`) and the proximity sensor loop
(`NeoService.sensor_loop`), together with theorems checking the
specification's claims about them.

Conventions of the embedding:
* Python exceptions become the `PyExc` type; a handler that re-raises
  `FailedException(str(e))` (the catch-all in `WriteChrc.WriteValue`) is
  modelled by the `PyExc.wrapped` constructor applied to the caught
  exception.
* External side effects (servo pulses, notification signals, `nmcli`
  invocations, the `settings.json` write) become entries of the `Eff` list
  an operation returns, in the order the Python code performs them.
* `send_notification` records an `Eff.emit` entry at every call site
  (the dispatcher handing the event to the notification channel) and an
  `Eff.deliver` entry only when `notifying` is set, mirroring the guard at
  the top of `InformChrc.send_notification`.
* The settings JSON object `{"settings": {...}}` always carries the three
  keys `minAngle`, `maxAngle`, `detectDistance` (guaranteed by
  `return_default`/`read_json`); it is modelled as a record with those
  three fields plus an association list for any further keys added by
  `save_json`.
* `json.loads` of the `SETTINGS:` payload is external-library behaviour and
  is passed in as a `decode` oracle producing the `(type, key, value)`
  triple, `none` modelling `json.JSONDecodeError`/`KeyError`.
* Distances are rationals (the Python floats enter only through order
  comparisons in the code paths modelled here).
-/

namespace NeoBin

/-- Values carried by a notification payload (the single-key JSON objects
built in `send_notification`). `wifiInfo` stands for the externally
produced WiFi status dictionary of `get_wifi_status`. -/
inductive NVal
  | i (n : Int)
  | b (v : Bool)
  | wifiInfo
  deriving DecidableEq, Repr

/-- Python exceptions raised by the embedded code.
`failed msg` is `FailedException(msg)`, `invalidValueLength` is
`InvalidValueLengthException()`, `typeErrorMissingArg` is the `TypeError`
raised when `update_settings` is called without its `data` argument
(keyword `SETTINGS`), `indexError` is the `IndexError` from
`command.split(":")[1]` in `connect_to_wifi`, and `wrapped e` is the
`FailedException(str(e))` re-raised by the catch-all handler at the end of
`WriteChrc.WriteValue`. -/
inductive PyExc
  | failed (msg : String)
  | invalidValueLength
  | typeErrorMissingArg
  | indexError
  | wrapped (inner : PyExc)
  deriving DecidableEq, Repr

/-- Externally visible effects, in program order. -/
inductive Eff
  | emit (key : String) (v : NVal)
  | deliver (key : String) (v : NVal)
  | servo (pulseWidth : Int)
  | wifiConnectCmd (ssid password : String)
  | wifiDisconnectCmd
  | persist (typ key : String) (value : Int)
  deriving DecidableEq, Repr

/-- The `"settings"` section of `settings.json`: the three keys present in
the default file plus any extra keys later inserted by `save_json`. -/
structure SettingsDict where
  minAngle : Int
  maxAngle : Int
  detectDistance : Int
  extra : List (String × Int)
  deriving DecidableEq, Repr

/-- The shared mutable state of `NeoService` together with the
`notifying` flag of `InformChrc`. -/
structure DeviceState where
  is_auth : Bool
  status : Bool
  angle : Int
  opened : Bool
  running : Bool
  notifying : Bool
  settings : SettingsDict
  deriving DecidableEq, Repr

/-- `{"settings": {"minAngle": 0, "maxAngle": 180, "detectDistance": 20}}`
from `NeoService.return_default`. -/
def defaultSettings : SettingsDict :=
  { minAngle := 0, maxAngle := 180, detectDistance := 20, extra := [] }

/-- `NeoService.__init__`: `is_auth = False`, `status = True`, `angle = 0`,
`opened = 180 >= self.angle > 0` (literal bounds, not the settings),
`running = False`; `InformChrc.__init__` sets `notifying = False`. -/
def initState (s : SettingsDict) : DeviceState :=
  { is_auth := false, status := true, angle := 0,
    opened := decide ((180 : Int) ≥ 0 ∧ (0 : Int) > 0),
    running := false, notifying := false, settings := s }

/-- `InformChrc.send_notification`: forwards the single-key payload to
`PropertiesChanged` only when `notifying` is set, otherwise drops it.
The `emit` entry records the call itself. -/
def send_notification (notifying : Bool) (key : String) (v : NVal) : List Eff :=
  Eff.emit key v :: (if notifying then [Eff.deliver key v] else [])

/-- `pulse_width = 500 + ((180 - angle) * 2000 // 180)` with Python's
floor division. -/
def pulse_width (angle : Int) : Int :=
  500 + Int.fdiv ((180 - angle) * 2000) 180

/-- `NeoService.set_servo_angle`: raises `FailedException` when the device
is off; otherwise the body runs inside `try/except Exception`, so the
`InvalidValueLengthException` raised for an out-of-range angle is caught
by the function's own handler and only logged — no exception escapes and
no pulse is sent. In range, the pulse is sent. -/
def set_servo_angle (st : DeviceState) (angle : Int) : List Eff × Option PyExc :=
  if st.status = false then
    ([], some (.failed "NeoBin is not on"))
  else if ¬ (st.settings.minAngle ≤ angle ∧ angle ≤ st.settings.maxAngle) then
    ([], none)
  else
    ([Eff.servo (pulse_width angle)], none)

/-- Result of a stateful operation: the (possibly partially mutated)
state, the effects performed, and the exception propagated to the caller
(`none` on success). -/
structure Outcome where
  st : DeviceState
  effs : List Eff
  err : Option PyExc
  deriving DecidableEq, Repr

/-- `WriteChrc.set_open`: `angle := int(maxAngle)`, then the servo call
(whose "device off" exception propagates with `angle` already mutated),
then `opened := int(maxAngle) >= angle > int(minAngle)`, then the
`Angle` and `Opened` notifications in that order. -/
def set_open (st : DeviceState) : Outcome :=
  let st1 := { st with angle := st.settings.maxAngle }
  let r := set_servo_angle st1 st1.angle
  match r.2 with
  | some e => ⟨st1, r.1, some e⟩
  | none =>
    let st2 := { st1 with
      opened := decide (st1.settings.maxAngle ≥ st1.angle ∧
                        st1.angle > st1.settings.minAngle) }
    ⟨st2, r.1 ++ send_notification st2.notifying "Angle" (.i st2.angle)
             ++ send_notification st2.notifying "Opened" (.b st2.opened), none⟩

/-- `WriteChrc.set_close`: as `set_open` with `minAngle`. -/
def set_close (st : DeviceState) : Outcome :=
  let st1 := { st with angle := st.settings.minAngle }
  let r := set_servo_angle st1 st1.angle
  match r.2 with
  | some e => ⟨st1, r.1, some e⟩
  | none =>
    let st2 := { st1 with
      opened := decide (st1.settings.maxAngle ≥ st1.angle ∧
                        st1.angle > st1.settings.minAngle) }
    ⟨st2, r.1 ++ send_notification st2.notifying "Angle" (.i st2.angle)
             ++ send_notification st2.notifying "Opened" (.b st2.opened), none⟩

/-- `WriteChrc.set_status`: flips `status` and sends the `Status`
notification. -/
def set_status (st : DeviceState) : Outcome :=
  let st1 := { st with status := !st.status }
  ⟨st1, send_notification st1.notifying "Status" (.b st1.status), none⟩

/-- `WriteChrc.get_settings`: sends the `maxAngle` and `detectDistance`
notifications (`minAngle` is not sent). -/
def get_settings (st : DeviceState) : Outcome :=
  ⟨st, send_notification st.notifying "maxAngle" (.i st.settings.maxAngle)
    ++ send_notification st.notifying "detectDistance" (.i st.settings.detectDistance),
   none⟩

/-- `WriteChrc.get_wifi`: sends the `WiFiConnectionData` notification. -/
def get_wifi (st : DeviceState) : Outcome :=
  ⟨st, send_notification st.notifying "WiFiConnectionData" .wifiInfo, none⟩

/-- `WriteChrc.disconnect_from_wifi`: runs `nmcli device disconnect`
(without `check=True`, so no exception) and sends the
`WiFiConnectionData` notification. -/
def disconnect_from_wifi (st : DeviceState) : Outcome :=
  ⟨st, Eff.wifiDisconnectCmd ::
        send_notification st.notifying "WiFiConnectionData" .wifiInfo, none⟩

/-! ## Python string primitives used by the command dispatcher -/

/-- `command.startswith(p)`: character-wise prefix test. -/
def pyStartswith (s p : String) : Bool :=
  p.data.isPrefixOf s.data

/-- `command[n:]` (Python slicing from index `n`). -/
def pyDrop (s : String) (n : Nat) : String :=
  ⟨s.data.drop n⟩

/-- `str.split(sep)` for a one-character separator: every occurrence
splits, empty segments are kept (`"".split(":") == [""]`). -/
def splitOnCh (sep : Char) : List Char → List (List Char)
  | [] => [[]]
  | c :: cs =>
    let r := splitOnCh sep cs
    if c == sep then [] :: r
    else
      match r with
      | [] => [[c]]
      | g :: gs => (c :: g) :: gs

/-- Whitespace stripped by Python's `int(str)`. -/
def isPySpace (c : Char) : Bool :=
  c == ' ' || c == '\t' || c == '\n' || c == '\r' || c == '\x0b' || c == '\x0c'

/-- ASCII decimal digit. -/
def isPyDigit (c : Char) : Bool :=
  '0' ≤ c && c ≤ '9'

/-- Valid continuation of a digit group for Python's `int`: digits with
single underscores allowed between two digits. -/
def digitTail : List Char → Bool
  | [] => true
  | '_' :: c :: rest => isPyDigit c && digitTail (c :: rest)
  | c :: rest => isPyDigit c && digitTail rest

/-- Numeric value of a digit/underscore list (underscores skipped). -/
def digitsVal (cs : List Char) : Nat :=
  cs.foldl (fun acc c => if c == '_' then acc else acc * 10 + (c.toNat - '0'.toNat)) 0

/-- Unsigned part of Python's `int(str)`: nonempty, starts with a digit,
underscores only between digits. -/
def pyIntNat (cs : List Char) : Option Nat :=
  match cs with
  | [] => none
  | c :: _ => if isPyDigit c && digitTail cs then some (digitsVal cs) else none

/-- Strip leading and trailing whitespace. -/
def stripPySpace (cs : List Char) : List Char :=
  ((cs.dropWhile isPySpace).reverse.dropWhile isPySpace).reverse

/-- Python's `int(str)` on ASCII input: optional surrounding whitespace,
optional sign, decimal digits with single interior underscores; `none`
models the `ValueError`. -/
def pyInt (s : String) : Option Int :=
  match stripPySpace s.data with
  | '+' :: rest => (pyIntNat rest).map (fun n => (n : Int))
  | '-' :: rest => (pyIntNat rest).map (fun n => -(n : Int))
  | cs => (pyIntNat cs).map (fun n => (n : Int))

/-! ## The command characteristic (`WriteChrc`) -/

/-- `WriteChrc.connect_to_wifi`: `ssid = command.split(":")[0]`,
`password = command.split(":")[1]` — the password is the segment between
the first and second separator, not the whole remainder. Fewer than two
segments raise `IndexError`. Both the success and the
`CalledProcessError` branch of the `nmcli` call send the
`WiFiConnectionData` notification, so the outcome does not depend on the
external network call. -/
def connect_to_wifi (st : DeviceState) (command : String) : Outcome :=
  match splitOnCh ':' command.data with
  | ssid :: password :: _ =>
    ⟨st, Eff.wifiConnectCmd ⟨ssid⟩ ⟨password⟩ ::
          send_notification st.notifying "WiFiConnectionData" .wifiInfo, none⟩
  | _ => ⟨st, [], some .indexError⟩

/-- `NeoService.save_json`: `settings[data["type"]][data["key"]] = value`.
For the (only existing) section `"settings"` any key is written — known
keys update their field, an unknown key is inserted. A missing section
raises `KeyError`, caught by the function's `except Exception` handler
and re-raised as `FailedException`. The updated object is written back to
`settings.json` and becomes the new cached settings. -/
def SettingsDict.setKey (s : SettingsDict) (key : String) (v : Int) : SettingsDict :=
  if key = "minAngle" then { s with minAngle := v }
  else if key = "maxAngle" then { s with maxAngle := v }
  else if key = "detectDistance" then { s with detectDistance := v }
  else { s with extra := assocSet s.extra key v }
where
  assocSet : List (String × Int) → String → Int → List (String × Int)
    | [], k, v => [(k, v)]
    | (k', v') :: rest, k, v =>
      if k' = k then (k, v) :: rest else (k', v') :: assocSet rest k v

/-- `NeoService.save_json` (see `SettingsDict.setKey`). -/
def save_json (st : DeviceState) (typ key : String) (value : Int) : Outcome :=
  if typ = "settings" then
    ⟨{ st with settings := st.settings.setKey key value },
     [Eff.persist typ key value], none⟩
  else
    ⟨st, [], some (.failed "Couldn't save file")⟩

/-- `WriteChrc.update_settings`: `json.loads` the payload and extract
`type`/`key`/`value` (failure of either raises
`InvalidValueLengthException`), then `save_json`; on success send one
notification with the changed key and value. The `FailedException` from
`save_json` is not caught by the `(json.JSONDecodeError, KeyError)`
handler and propagates. -/
def update_settings (decode : String → Option (String × String × Int))
    (st : DeviceState) (data : String) : Outcome :=
  match decode data with
  | none => ⟨st, [], some .invalidValueLength⟩
  | some (typ, key, value) =>
    let r := save_json st typ key value
    match r.err with
    | some e => ⟨r.st, r.effs, some e⟩
    | none =>
      ⟨r.st, r.effs ++ send_notification r.st.notifying key (.i value), none⟩

/-- The `ANGLE:` branch of `WriteChrc.WriteValue`: `int()` the remainder
(a `ValueError` raises `InvalidValueLengthException`), assign `angle`
*before* calling `set_servo_angle` (whose "device off" exception
propagates with `angle` already mutated), recompute `opened`, and send
the `Angle` and `Opened` notifications in that order. There is no range
check here, and the one inside `set_servo_angle` cannot raise (see
`set_servo_angle`). -/
def angleCommand (st : DeviceState) (rest : String) : Outcome :=
  match pyInt rest with
  | none => ⟨st, [], some .invalidValueLength⟩
  | some a =>
    let st1 := { st with angle := a }
    let r := set_servo_angle st1 st1.angle
    match r.2 with
    | some e => ⟨st1, r.1, some e⟩
    | none =>
      let st2 := { st1 with
        opened := decide (st1.settings.maxAngle ≥ st1.angle ∧
                          st1.angle > st1.settings.minAngle) }
      ⟨st2, r.1 ++ send_notification st2.notifying "Angle" (.i st2.angle)
               ++ send_notification st2.notifying "Opened" (.b st2.opened), none⟩

/-- The body of `WriteChrc.WriteValue`'s `try` block: prefix dispatch for
`ANGLE:`/`CONNECT:`/`SETTINGS:` (see `angleCommand` for the first), then
the `command_handler` table (`OPEN`, `CLOSE`, `STATUS`, `SETTINGS`,
`GET_SETTINGS`, `WIFI_DISCONNECT`, `GET_WIFI`), else
`FailedException("Invalid command")`. The bare keyword `SETTINGS` selects
`update_settings` from the table and calls it with no argument, raising
`TypeError`. -/
def writeBody (decode : String → Option (String × String × Int))
    (st : DeviceState) (command : String) : Outcome :=
  if pyStartswith command "ANGLE:" then
    angleCommand st (pyDrop command 6)
  else if pyStartswith command "CONNECT:" then
    connect_to_wifi st (pyDrop command 8)
  else if pyStartswith command "SETTINGS:" then
    update_settings decode st (pyDrop command 9)
  else if command = "OPEN" then set_open st
  else if command = "CLOSE" then set_close st
  else if command = "STATUS" then set_status st
  else if command = "SETTINGS" then ⟨st, [], some .typeErrorMissingArg⟩
  else if command = "GET_SETTINGS" then get_settings st
  else if command = "WIFI_DISCONNECT" then disconnect_from_wifi st
  else if command = "GET_WIFI" then get_wifi st
  else ⟨st, [], some (.failed "Invalid command")⟩

/-- The catch-all `except Exception as e: raise FailedException(str(e))`
at the end of `WriteChrc.WriteValue`. -/
def wrapOutcome (r : Outcome) : Outcome :=
  match r.err with
  | none => r
  | some e => ⟨r.st, r.effs, some (.wrapped e)⟩

/-- `WriteChrc.WriteValue`: the authentication gate runs before the `try`
block, so its `FailedException("Not authenticated")` is raised unwrapped;
every exception from the body is re-raised as `FailedException(str(e))`. -/
def WriteValue (decode : String → Option (String × String × Int))
    (st : DeviceState) (command : String) : Outcome :=
  if st.is_auth = false then
    ⟨st, [], some (.failed "Not authenticated")⟩
  else
    wrapOutcome (writeBody decode st command)

/-! ## The read/notify characteristic (`InformChrc`) and authentication -/

/-- A value returned by `InformChrc.ReadValue`. -/
inductive ReadVal
  | b (v : Bool)
  | i (n : Int)
  deriving DecidableEq, Repr

/-- `InformChrc.ReadValue`: authentication first, then the
`command_handler` table `STATUS`/`OPENED`/`ANGLE` resolving against the
current state; an unrecognized selector raises
`FailedException("Invalid command")`. -/
def ReadValue (st : DeviceState) (options : String) : Except PyExc ReadVal :=
  if st.is_auth = false then .error (.failed "Not authenticated")
  else if options = "STATUS" then .ok (.b st.status)
  else if options = "OPENED" then .ok (.b st.opened)
  else if options = "ANGLE" then .ok (.i st.angle)
  else .error (.failed "Invalid command")

/-- `InformChrc.StartNotify`: the idempotence check (`if self.notifying:
return`) runs *before* the authentication check. -/
def StartNotify (st : DeviceState) : DeviceState × Option PyExc :=
  if st.notifying then (st, none)
  else if st.is_auth = false then (st, some (.failed "Not authenticated"))
  else ({ st with notifying := true }, none)

/-- `InformChrc.StopNotify`: clears `notifying`; never checks
authentication. -/
def StopNotify (st : DeviceState) : DeviceState :=
  if st.notifying = false then st else { st with notifying := false }

/-- `AuthChrc.PASS = b"NeoBin"` as a byte list. -/
def PASS : List Nat := [0x4E, 0x65, 0x6F, 0x42, 0x69, 0x6E]

/-- `AuthChrc.WriteValue`: exact byte comparison against `PASS`; a
mismatch clears `is_auth` and raises
`FailedException("Authentication Failed")`, a match sets it. -/
def authWriteValue (st : DeviceState) (value : List Nat) :
    DeviceState × Option PyExc :=
  if value ≠ PASS then
    ({ st with is_auth := false }, some (.failed "Authentication Failed"))
  else
    ({ st with is_auth := true }, none)

/-! ## The proximity sensor loop (`NeoService.sensor_loop`) -/

/-- `NeoService.measure_distance`: returns `0` when the device is off;
otherwise the echo timing produces a raw distance (here the oracle
parameter `raw`, standing for `pulse_duration * 34300 / 2`, with edge
timeouts and measurement exceptions folded into non-positive `raw`), and
the result is clamped: `distance if 0 < distance < 300 else 0`. -/
def measure_distance (st : DeviceState) (raw : ℚ) : ℚ :=
  if st.status = false then 0
  else if 0 < raw ∧ raw < 300 then raw else 0

/-- One observable action of the sensor loop: a call into the command
characteristic, or a `time.sleep` (milliseconds). -/
inductive SensorAct
  | openCall
  | closeCall
  | sleep (ms : Nat)
  deriving DecidableEq, Repr

/-- Result of one or more sensor-loop iterations. -/
structure SensorOutcome where
  st : DeviceState
  effs : List Eff
  acts : List SensorAct
  deriving DecidableEq, Repr

/-- One iteration of the `while self.running` body of
`NeoService.sensor_loop`: measure, and if `0 < distance <
detectDistance` call `set_open`, sleep 3 s, and — only if `running` is
still set at the re-check (`runningAtRecheck`, which a concurrent
shutdown may have cleared) — call `set_close`, then sleep 0.5 s. Any
exception is caught by the iteration's handler, which sleeps 1 s. -/
def sensor_iter (st : DeviceState) (raw : ℚ) (runningAtRecheck : Bool) :
    SensorOutcome :=
  let d := measure_distance st raw
  if 0 < d ∧ d < (st.settings.detectDistance : ℚ) then
    let r1 := set_open st
    match r1.err with
    | some _ => ⟨r1.st, r1.effs, [SensorAct.openCall, SensorAct.sleep 1000]⟩
    | none =>
      if runningAtRecheck then
        let r2 := set_close r1.st
        match r2.err with
        | some _ => ⟨r2.st, r1.effs ++ r2.effs,
                     [SensorAct.openCall, SensorAct.sleep 3000,
                      SensorAct.closeCall, SensorAct.sleep 1000]⟩
        | none => ⟨r2.st, r1.effs ++ r2.effs,
                   [SensorAct.openCall, SensorAct.sleep 3000,
                    SensorAct.closeCall, SensorAct.sleep 500]⟩
      else ⟨r1.st, r1.effs, [SensorAct.openCall, SensorAct.sleep 3000]⟩
  else ⟨st, [], []⟩

/-- Run the sensor loop over a list of raw readings with no concurrent
interference (`running` is re-checked from the state itself). -/
def runSensor : DeviceState → List ℚ → SensorOutcome
  | st, [] => ⟨st, [], []⟩
  | st, r :: rest =>
    if st.running then
      let o := sensor_iter st r st.running
      let o2 := runSensor o.st rest
      ⟨o2.st, o.effs ++ o2.effs, o.acts ++ o2.acts⟩
    else ⟨st, [], []⟩

/-- The specification's DeviceState invariant:
`opened == (minAngle < angle <= maxAngle)`. -/
def stateInv (st : DeviceState) : Prop :=
  st.opened = decide (st.settings.minAngle < st.angle ∧
                      st.angle ≤ st.settings.maxAngle)

instance (st : DeviceState) : Decidable (stateInv st) := by
  unfold stateInv; infer_instance

/-! ## Interleaved execution of the two mutating contexts

The command path runs on the main-loop thread and the sensor loop on its
own thread; the source has no lock, so their attribute reads and writes
interleave. Each Python statement of `set_open`/`set_close` and of the
`ANGLE:` branch of `WriteChrc.WriteValue` becomes one atomic micro
operation on the shared `DeviceState`. -/

/-- One atomic statement of an open/close/set-angle path:
`writeAngleConst a` is `self.service.angle = angle` (`WriteValue`,
`ANGLE:` branch), `writeAngleMax`/`writeAngleMin` are the first lines of
`set_open`/`set_close`, `servoCurrent` is
`set_servo_angle(self.service.angle)`, `recomputeOpened` is
`self.service.opened = int(maxAngle) >= self.service.angle >
int(minAngle)`, and the two notify steps re-read the current field. -/
inductive MicroOp
  | writeAngleConst (a : Int)
  | writeAngleMax
  | writeAngleMin
  | servoCurrent
  | recomputeOpened
  | notifyAngle
  | notifyOpened
  deriving DecidableEq, Repr

/-- Effect of one micro operation on the shared state. -/
def microStep (st : DeviceState) (op : MicroOp) : DeviceState × List Eff :=
  match op with
  | .writeAngleConst a => ({ st with angle := a }, [])
  | .writeAngleMax => ({ st with angle := st.settings.maxAngle }, [])
  | .writeAngleMin => ({ st with angle := st.settings.minAngle }, [])
  | .servoCurrent => (st, (set_servo_angle st st.angle).1)
  | .recomputeOpened =>
    ({ st with opened := decide (st.settings.maxAngle ≥ st.angle ∧
                                 st.angle > st.settings.minAngle) }, [])
  | .notifyAngle => (st, send_notification st.notifying "Angle" (.i st.angle))
  | .notifyOpened => (st, send_notification st.notifying "Opened" (.b st.opened))

/-- `WriteChrc.set_open` as its sequence of atomic statements. -/
def openProg : List MicroOp :=
  [.writeAngleMax, .servoCurrent, .recomputeOpened, .notifyAngle, .notifyOpened]

/-- `WriteChrc.set_close` as its sequence of atomic statements. -/
def closeProg : List MicroOp :=
  [.writeAngleMin, .servoCurrent, .recomputeOpened, .notifyAngle, .notifyOpened]

/-- The `ANGLE:` branch of `WriteChrc.WriteValue` as its sequence of
atomic statements. -/
def angleProg (a : Int) : List MicroOp :=
  [.writeAngleConst a, .servoCurrent, .recomputeOpened, .notifyAngle, .notifyOpened]

/-- Interleave two threads of micro operations under a schedule
(`true` = step thread 1, `false` = step thread 2; a choice of an
exhausted thread consumes the schedule entry without a step). Returns
the trace of shared states after each executed step — exactly the states
a concurrently scheduled `InformChrc.ReadValue` can observe. -/
def runInterleaving : DeviceState → List MicroOp → List MicroOp → List Bool →
    List DeviceState
  | _, _, _, [] => []
  | st, t1, t2, true :: rest =>
    match t1 with
    | [] => runInterleaving st [] t2 rest
    | op :: ops =>
      let st' := (microStep st op).1
      st' :: runInterleaving st' ops t2 rest
  | st, t1, t2, false :: rest =>
    match t2 with
    | [] => runInterleaving st t1 [] rest
    | op :: ops =>
      let st' := (microStep st op).1
      st' :: runInterleaving st' t1 ops rest

/-! ## Helper lemmas: routing of the command dispatcher -/

theorem isPrefixOf_append_self (p l : List Char) :
    (p.isPrefixOf (p ++ l)) = true := by
  induction p with
  | nil => simp
  | cons c cs ih => simp [List.isPrefixOf_cons₂, ih]

theorem pyStartswith_self_append (p rest : String) :
    pyStartswith (p ++ rest) p = true := by
  simp [pyStartswith, String.data_append, isPrefixOf_append_self]

theorem connect_not_angle (rest : String) :
    pyStartswith ("CONNECT:" ++ rest) "ANGLE:" = false := rfl

theorem settings_not_angle (rest : String) :
    pyStartswith ("SETTINGS:" ++ rest) "ANGLE:" = false := rfl

theorem settings_not_connect (rest : String) :
    pyStartswith ("SETTINGS:" ++ rest) "CONNECT:" = false := rfl

theorem drop_angle (rest : String) : pyDrop ("ANGLE:" ++ rest) 6 = rest := rfl

theorem drop_connect (rest : String) : pyDrop ("CONNECT:" ++ rest) 8 = rest := rfl

theorem drop_settings (rest : String) : pyDrop ("SETTINGS:" ++ rest) 9 = rest := rfl

/-- A command of the form `ANGLE:<rest>` always dispatches to the
`ANGLE:` branch. -/
theorem writeBody_angle_route (decode : String → Option (String × String × Int))
    (st : DeviceState) (rest : String) :
    writeBody decode st ("ANGLE:" ++ rest) = angleCommand st rest := by
  simp [writeBody, pyStartswith_self_append, drop_angle]

/-- A command of the form `CONNECT:<rest>` dispatches to
`connect_to_wifi` with the remainder. -/
theorem writeBody_connect_route (decode : String → Option (String × String × Int))
    (st : DeviceState) (rest : String) :
    writeBody decode st ("CONNECT:" ++ rest) = connect_to_wifi st rest := by
  simp [writeBody, pyStartswith_self_append, connect_not_angle, drop_connect]

/-- A command of the form `SETTINGS:<rest>` dispatches to
`update_settings` with the remainder. -/
theorem writeBody_settings_route (decode : String → Option (String × String × Int))
    (st : DeviceState) (rest : String) :
    writeBody decode st ("SETTINGS:" ++ rest) = update_settings decode st rest := by
  simp [writeBody, pyStartswith_self_append, settings_not_angle,
        settings_not_connect, drop_settings]

/-- With the device on, `set_servo_angle` never raises: its only other
exception (the range check) is caught by its own handler. -/
theorem set_servo_angle_err_none (st : DeviceState) (a : Int)
    (h : st.status = true) : (set_servo_angle st a).2 = none := by
  unfold set_servo_angle
  rw [h]
  simp only [Bool.true_eq_false, if_false]
  split <;> rfl

/-- Full characterization of `set_open` when the device is on. -/
theorem set_open_eq (st : DeviceState) (h : st.status = true) :
    set_open st =
      ⟨{ st with
           angle := st.settings.maxAngle,
           opened := decide (st.settings.maxAngle ≥ st.settings.maxAngle ∧
                             st.settings.maxAngle > st.settings.minAngle) },
       (set_servo_angle { st with angle := st.settings.maxAngle }
          st.settings.maxAngle).1
         ++ send_notification st.notifying "Angle" (.i st.settings.maxAngle)
         ++ send_notification st.notifying "Opened"
              (.b (decide (st.settings.maxAngle ≥ st.settings.maxAngle ∧
                           st.settings.maxAngle > st.settings.minAngle))),
       none⟩ := by
  have h1 : (set_servo_angle { st with angle := st.settings.maxAngle }
      st.settings.maxAngle).2 = none := set_servo_angle_err_none _ _ h
  unfold set_open
  simp [h1]

/-- Full characterization of `set_close` when the device is on. -/
theorem set_close_eq (st : DeviceState) (h : st.status = true) :
    set_close st =
      ⟨{ st with
           angle := st.settings.minAngle,
           opened := decide (st.settings.maxAngle ≥ st.settings.minAngle ∧
                             st.settings.minAngle > st.settings.minAngle) },
       (set_servo_angle { st with angle := st.settings.minAngle }
          st.settings.minAngle).1
         ++ send_notification st.notifying "Angle" (.i st.settings.minAngle)
         ++ send_notification st.notifying "Opened"
              (.b (decide (st.settings.maxAngle ≥ st.settings.minAngle ∧
                           st.settings.minAngle > st.settings.minAngle))),
       none⟩ := by
  have h1 : (set_servo_angle { st with angle := st.settings.minAngle }
      st.settings.minAngle).2 = none := set_servo_angle_err_none _ _ h
  unfold set_close
  simp [h1]

/-- Full characterization of the `ANGLE:` branch when the argument parses
and the device is on: no failure even out of range. -/
theorem angleCommand_eq (st : DeviceState) (rest : String) (a : Int)
    (hp : pyInt rest = some a) (h : st.status = true) :
    angleCommand st rest =
      ⟨{ st with
           angle := a,
           opened := decide (st.settings.maxAngle ≥ a ∧ a > st.settings.minAngle) },
       (set_servo_angle { st with angle := a } a).1
         ++ send_notification st.notifying "Angle" (.i a)
         ++ send_notification st.notifying "Opened"
              (.b (decide (st.settings.maxAngle ≥ a ∧ a > st.settings.minAngle))),
       none⟩ := by
  have h1 : (set_servo_angle { st with angle := a } a).2 = none :=
    set_servo_angle_err_none _ _ h
  unfold angleCommand
  rw [hp]
  simp [h1]

/-- A positive measurement implies the device was on (`measure_distance`
returns `0` immediately when `status` is false). -/
theorem measure_pos_status (st : DeviceState) (raw : ℚ)
    (h : 0 < measure_distance st raw) : st.status = true := by
  cases hstat : st.status with
  | false => rw [measure_distance, if_pos hstat] at h; exact absurd h (lt_irrefl 0)
  | true => rfl

/-! ## Representative concrete states and oracles -/

/-- An authenticated, powered-on, subscribed state with the default
settings (reachable: authenticate with the credential, `StartNotify`). -/
def authState : DeviceState :=
  { is_auth := true, status := true, angle := 0, opened := false,
    running := true, notifying := true, settings := defaultSettings }

/-- The same state with `is_auth` cleared (reachable from `authState` by
a failed authentication attempt, which leaves `notifying` set). -/
def unauthState : DeviceState :=
  { authState with is_auth := false }

/-- `unauthState` additionally without a subscription. -/
def unauthNoNotify : DeviceState :=
  { unauthState with notifying := false }

/-- A decode oracle for commands whose JSON payload is never inspected. -/
def noDecode : String → Option (String × String × Int) := fun _ => none

/-! ## Claims -/

/-- C1: the spec says `SetAngle(a)` fails with `InvalidArgument` for `a`
outside `[minAngle, maxAngle]` with state unchanged. The code instead
accepts `ANGLE:200` in the default authenticated state: it returns
success, sets `angle` to `200`, recomputes `opened`, and emits the
`Angle` and `Opened` notifications; no servo pulse is sent because the
`InvalidValueLengthException` raised inside `set_servo_angle` is
swallowed by that function's own exception handler, and `angle` was
assigned before the check. In range (`ANGLE:90`) the command behaves as
specified. -/
theorem C1_out_of_range_setangle_accepted :
    (WriteValue noDecode authState "ANGLE:200").err = none ∧
    (WriteValue noDecode authState "ANGLE:200").st.angle = 200 ∧
    (WriteValue noDecode authState "ANGLE:200").st.opened = false ∧
    (WriteValue noDecode authState "ANGLE:200").effs =
      [Eff.emit "Angle" (.i 200), Eff.deliver "Angle" (.i 200),
       Eff.emit "Opened" (.b false), Eff.deliver "Opened" (.b false)] ∧
    (WriteValue noDecode authState "ANGLE:90").err = none ∧
    (WriteValue noDecode authState "ANGLE:90").st.angle = 90 ∧
    (WriteValue noDecode authState "ANGLE:90").st.opened = true ∧
    (WriteValue noDecode authState "ANGLE:90").effs =
      [Eff.servo 1500, Eff.emit "Angle" (.i 90), Eff.deliver "Angle" (.i 90),
       Eff.emit "Opened" (.b true), Eff.deliver "Opened" (.b true)] := by
  decide

/-- C2 counterexample: in the reachable state `unauthState`
(unauthenticated but with `notifying` still set from an earlier session),
`StartNotify` does not fail with the authentication error — its
idempotence check returns success before the authentication check runs. -/
theorem C2_counterexample_startnotify_unauthenticated :
    unauthState.is_auth = false ∧ unauthState.notifying = true ∧
    StartNotify unauthState = (unauthState, none) := by decide

/-- C2 amended: while unauthenticated, every write command, every read,
and `StartNotify` with no active subscription fail with
`FailedException("Not authenticated")` and leave the state unchanged with
no effects; the one exception is `StartNotify` when `notifying` is
already set, which returns successfully (still without mutating
anything). -/
theorem C2_unauthenticated_rejected (st : DeviceState)
    (decode : String → Option (String × String × Int)) (command sel : String)
    (h : st.is_auth = false) :
    WriteValue decode st command = ⟨st, [], some (.failed "Not authenticated")⟩ ∧
    ReadValue st sel = .error (.failed "Not authenticated") ∧
    (st.notifying = false →
      StartNotify st = (st, some (.failed "Not authenticated"))) ∧
    (st.notifying = true → StartNotify st = (st, none)) := by
  refine ⟨by simp [WriteValue, h], by simp [ReadValue, h],
          fun hn => ?_, fun hn => ?_⟩
  · simp [StartNotify, hn, h]
  · simp [StartNotify, hn]

/-- C2 witness. -/
theorem C2_unauthenticated_rejected_witness :
    WriteValue noDecode unauthState "OPEN" =
      ⟨unauthState, [], some (.failed "Not authenticated")⟩ ∧
    ReadValue unauthState "ANGLE" = .error (.failed "Not authenticated") ∧
    StartNotify unauthNoNotify =
      (unauthNoNotify, some (.failed "Not authenticated")) := by
  have h1 := C2_unauthenticated_rejected unauthState noDecode "OPEN" "ANGLE" rfl
  have h2 := C2_unauthenticated_rejected unauthNoNotify noDecode "OPEN" "ANGLE" rfl
  exact ⟨h1.1, h1.2.1, h2.2.2.1 rfl⟩

/-- Decode oracle returning the unrecognized key `foo` under type
`settings`. -/
def fooDecode : String → Option (String × String × Int) :=
  fun _ => some ("settings", "foo", 5)

/-- Decode oracle returning a type other than `settings`. -/
def otherTypeDecode : String → Option (String × String × Int) :=
  fun _ => some ("other", "x", 1)

/-- C3 counterexample: the spec says `UpdateSettings` fails with
`InvalidArgument` for every key outside
`{minAngle, maxAngle, detectDistance}` and leaves the cached settings
unchanged. The code has no key whitelist: in the authenticated default
state a `SETTINGS:` command whose JSON decodes to
`(type=settings, key=foo, value=5)` succeeds, persists the new key,
replaces the cached settings, and emits a `foo` notification. -/
theorem C3_counterexample_unrecognized_key_accepted :
    (WriteValue fooDecode authState "SETTINGS:x").err = none ∧
    (WriteValue fooDecode authState "SETTINGS:x").st.settings =
      { defaultSettings with extra := [("foo", 5)] } ∧
    (WriteValue fooDecode authState "SETTINGS:x").effs =
      [Eff.persist "settings" "foo" 5, Eff.emit "foo" (.i 5),
       Eff.deliver "foo" (.i 5)] := by decide

/-- C3 amended: for an authenticated state, `UpdateSettings` accepts any
key whatsoever under the existing section `settings` — it persists the
pair, replaces the cached settings wholesale, and emits exactly one
notification with the changed key and value; `InvalidValueLength`
(`InvalidArgument`) is raised only when the JSON payload fails to decode
or lacks the `type`/`key`/`value` fields, and a `type` other than
`settings` fails with the wrapped `FailedException` from `save_json`.
There is no key validation. -/
theorem C3_update_settings_amended (st : DeviceState)
    (dOk dBad dTyp : String → Option (String × String × Int))
    (raw key typ key2 : String) (v v2 : Int)
    (h : st.is_auth = true)
    (hOk : dOk raw = some ("settings", key, v))
    (hBad : dBad raw = none)
    (hTyp : dTyp raw = some (typ, key2, v2)) (hTypNe : typ ≠ "settings") :
    WriteValue dOk st ("SETTINGS:" ++ raw) =
      ⟨{ st with settings := st.settings.setKey key v },
       Eff.persist "settings" key v ::
         send_notification st.notifying key (.i v), none⟩ ∧
    WriteValue dBad st ("SETTINGS:" ++ raw) =
      ⟨st, [], some (.wrapped .invalidValueLength)⟩ ∧
    WriteValue dTyp st ("SETTINGS:" ++ raw) =
      ⟨st, [], some (.wrapped (.failed "Couldn't save file"))⟩ := by
  refine ⟨?_, ?_, ?_⟩ <;>
    simp [WriteValue, h, writeBody_settings_route, update_settings, hOk, hBad,
          hTyp, save_json, hTypNe, wrapOutcome]

/-- C3 witness. -/
theorem C3_update_settings_amended_witness :
    WriteValue fooDecode authState "SETTINGS:x" =
      ⟨{ authState with settings := authState.settings.setKey "foo" 5 },
       Eff.persist "settings" "foo" 5 ::
         send_notification authState.notifying "foo" (.i 5), none⟩ ∧
    WriteValue noDecode authState "SETTINGS:x" =
      ⟨authState, [], some (.wrapped .invalidValueLength)⟩ ∧
    WriteValue otherTypeDecode authState "SETTINGS:x" =
      ⟨authState, [], some (.wrapped (.failed "Couldn't save file"))⟩ :=
  C3_update_settings_amended authState fooDecode noDecode otherTypeDecode
    "x" "foo" "other" "x" 5 1 rfl rfl rfl rfl (by decide)

/-- C4: the read path. Authenticated, the selectors `STATUS`, `OPENED`,
`ANGLE` return the corresponding current field of the device state and
any other selector fails with `FailedException("Invalid command")` (the
error the specification's taxonomy calls `InvalidArgument` for this
path); unauthenticated, every read fails with
`FailedException("Not authenticated")`. -/
theorem C4_read_path (st : DeviceState) (sel : String)
    (hsel : sel ≠ "STATUS" ∧ sel ≠ "OPENED" ∧ sel ≠ "ANGLE") :
    (st.is_auth = true →
      ReadValue st "STATUS" = .ok (.b st.status) ∧
      ReadValue st "OPENED" = .ok (.b st.opened) ∧
      ReadValue st "ANGLE" = .ok (.i st.angle) ∧
      ReadValue st sel = .error (.failed "Invalid command")) ∧
    (st.is_auth = false → ∀ anySel : String,
      ReadValue st anySel = .error (.failed "Not authenticated")) := by
  obtain ⟨h1, h2, h3⟩ := hsel
  constructor
  · intro ha
    refine ⟨?_, ?_, ?_, ?_⟩ <;> simp [ReadValue, ha, h1, h2, h3]
  · intro ha anySel
    simp [ReadValue, ha]

/-- C4 witness: includes the unauthenticated reads of the three
recognized selectors. -/
theorem C4_read_path_witness :
    ReadValue authState "STATUS" = .ok (.b true) ∧
    ReadValue authState "OPENED" = .ok (.b false) ∧
    ReadValue authState "ANGLE" = .ok (.i 0) ∧
    ReadValue authState "BOGUS" = .error (.failed "Invalid command") ∧
    ReadValue unauthState "STATUS" = .error (.failed "Not authenticated") ∧
    ReadValue unauthState "OPENED" = .error (.failed "Not authenticated") ∧
    ReadValue unauthState "ANGLE" = .error (.failed "Not authenticated") ∧
    ReadValue unauthState "BOGUS" = .error (.failed "Not authenticated") := by
  have hA := (C4_read_path authState "BOGUS" (by decide)).1 rfl
  have hU := (C4_read_path unauthState "BOGUS" (by decide)).2 rfl
  exact ⟨hA.1, hA.2.1, hA.2.2.1, hA.2.2.2,
         hU "STATUS", hU "OPENED", hU "ANGLE", hU "BOGUS"⟩

/-- C7: authentication compares the written bytes against the fixed
credential `b"NeoBin"`: a match sets `is_auth` and succeeds, any other
byte string clears `is_auth` — even if it was previously set — and
raises `FailedException("Authentication Failed")`. Nothing else in the
state changes. -/
theorem C7_authenticate (st : DeviceState) (v : List Nat) :
    (v = PASS → authWriteValue st v = ({ st with is_auth := true }, none)) ∧
    (v ≠ PASS →
      authWriteValue st v =
        ({ st with is_auth := false },
         some (.failed "Authentication Failed"))) := by
  constructor
  · intro hv
    simp [authWriteValue, hv]
  · intro hv
    simp [authWriteValue, hv]

/-- C7 witness: the credential authenticates an unauthenticated session;
a wrong byte string revokes an authenticated one. -/
theorem C7_authenticate_witness :
    authWriteValue unauthState PASS = ({ unauthState with is_auth := true }, none) ∧
    authWriteValue authState [0x42] =
      ({ authState with is_auth := false },
       some (.failed "Authentication Failed")) :=
  ⟨(C7_authenticate unauthState PASS).1 rfl,
   (C7_authenticate authState [0x42]).2 (by decide)⟩

/-- Decode oracle that shrinks `maxAngle` to `90`. -/
def maxAngleDecode : String → Option (String × String × Int) :=
  fun _ => some ("settings", "maxAngle", 90)

/-- The state after `ANGLE:180` in `authState`. -/
def c5Mid : DeviceState := (WriteValue noDecode authState "ANGLE:180").st

/-- The state after then updating `maxAngle` to `90`. -/
def c5Post : DeviceState := (WriteValue maxAngleDecode c5Mid "SETTINGS:x").st

/-- C5 counterexample: the invariant `opened == (minAngle < angle <=
maxAngle)` holds initially and after `ANGLE:180`, but the successful
`UpdateSettings` that shrinks `maxAngle` to `90` does not recompute
`opened`: the resulting state has `angle = 180`, `maxAngle = 90` and
`opened = true`, violating the invariant the claim says every operation
preserves. -/
theorem C5_counterexample_settings_update_breaks_invariant :
    stateInv authState ∧ stateInv c5Mid ∧
    (WriteValue maxAngleDecode c5Mid "SETTINGS:x").err = none ∧
    c5Post.angle = 180 ∧ c5Post.settings.maxAngle = 90 ∧
    c5Post.opened = true ∧ ¬ stateInv c5Post := by decide

/-- C5 amended: the invariant holds in the initial state provided the
persisted `minAngle` is nonnegative (the initial `opened` uses the
literal bound `0`), and — while the device is on — it is preserved by the
`ANGLE:` command (for any parsed angle, in range or not), by
`set_open`/`set_close`, by `ToggleStatus`, by `StartNotify`/`StopNotify`
and by authentication. It is not preserved by `UpdateSettings` when it
changes `minAngle`/`maxAngle` (see the counterexample), nor by
open/close/set-angle attempted while the device is off (which mutate
`angle` and then abort). -/
theorem C5_invariant_amended (st : DeviceState) (s : SettingsDict)
    (decode : String → Option (String × String × Int)) (rest : String)
    (a : Int) (bytes : List Nat)
    (hinv : stateInv st) (hstatus : st.status = true)
    (hmin : 0 ≤ s.minAngle) (hp : pyInt rest = some a) :
    stateInv (initState s) ∧
    stateInv (WriteValue decode st ("ANGLE:" ++ rest)).st ∧
    stateInv (set_open st).st ∧
    stateInv (set_close st).st ∧
    stateInv (set_status st).st ∧
    stateInv (StartNotify st).1 ∧
    stateInv (StopNotify st) ∧
    stateInv (authWriteValue st bytes).1 := by
  refine ⟨?_, ?_, ?_, ?_, ?_, ?_, ?_, ?_⟩
  · have h0 : ¬ (s.minAngle < 0 ∧ (0 : Int) ≤ s.maxAngle) :=
      fun hc => absurd hc.1 (not_lt.mpr hmin)
    simp [stateInv, initState, h0]
  · cases hauth : st.is_auth with
    | false =>
      simpa [WriteValue, hauth] using hinv
    | true =>
      rw [WriteValue, if_neg (by simp [hauth]), writeBody_angle_route,
          angleCommand_eq st rest a hp hstatus]
      show stateInv _
      simp only [wrapOutcome, stateInv]
      rw [decide_eq_decide]
      omega
  · rw [set_open_eq st hstatus]
    simp only [stateInv]
    rw [decide_eq_decide]
    omega
  · rw [set_close_eq st hstatus]
    simp only [stateInv]
    rw [decide_eq_decide]
    omega
  · simpa [set_status, stateInv] using hinv
  · unfold StartNotify
    split
    · exact hinv
    · split
      · exact hinv
      · simpa [stateInv] using hinv
  · unfold StopNotify
    split
    · exact hinv
    · simpa [stateInv] using hinv
  · unfold authWriteValue
    split
    · simpa [stateInv] using hinv
    · simpa [stateInv] using hinv

/-- C5 witness. -/
theorem C5_invariant_amended_witness :
    stateInv (initState defaultSettings) ∧
    stateInv (WriteValue noDecode authState "ANGLE:90").st ∧
    stateInv (set_open authState).st ∧
    stateInv (set_close authState).st ∧
    stateInv (set_status authState).st ∧
    stateInv (StartNotify authState).1 ∧
    stateInv (StopNotify authState) ∧
    stateInv (authWriteValue authState PASS).1 :=
  C5_invariant_amended authState defaultSettings noDecode "90" 90 PASS
    (by decide) rfl (by decide) (by decide)

/-- C6 counterexample: the claim says the password of
`CONNECT:<ssid>:<password>` is the whole remainder even if it contains
`:`. The code takes `command.split(":")[1]`: for
`CONNECT:net:pa:ss` the ssid is `net` and the password is `pa`, not
`pa:ss`. -/
theorem C6_counterexample_connect_password :
    WriteValue noDecode authState "CONNECT:net:pa:ss" =
      ⟨authState,
       Eff.wifiConnectCmd "net" "pa" ::
         send_notification authState.notifying "WiFiConnectionData" .wifiInfo,
       none⟩ ∧
    ∀ e ∈ (WriteValue noDecode authState "CONNECT:net:pa:ss").effs,
      e ≠ Eff.wifiConnectCmd "net" "pa:ss" := by decide

/-- C6 amended: the grammar as implemented. `ANGLE:<int>` dispatches
`SetAngle` (success, even out of range, with the device on); a numeric
parse failure raises `InvalidValueLength` (`Malformed`), wrapped by the
catch-all. `CONNECT:<rest>` splits `rest` on every `:` and uses segment 0
as ssid and segment 1 as password (not the whole remainder).
`SETTINGS:<payload>` routes the payload to `update_settings`. The exact
keywords `OPEN`, `CLOSE`, `STATUS`, `GET_SETTINGS`, `WIFI_DISCONNECT`
and `GET_WIFI` dispatch their zero-argument handlers successfully, but
the keyword `SETTINGS` selects `update_settings` with a missing argument
and fails with a `TypeError`; `GET_SETTINGS` is also a keyword although
the claim omits it. Any other text fails with
`FailedException("Invalid command")` (`UnknownCommand`). -/
theorem C6_parser_amended (st : DeviceState)
    (decode : String → Option (String × String × Int))
    (restOk restBad conn raw other : String) (a : Int)
    (s p : List Char) (more : List (List Char))
    (hauth : st.is_auth = true) (hstatus : st.status = true)
    (hOk : pyInt restOk = some a)
    (hBad : pyInt restBad = none)
    (hConn : splitOnCh ':' conn.data = s :: p :: more)
    (hOa : pyStartswith other "ANGLE:" = false)
    (hOc : pyStartswith other "CONNECT:" = false)
    (hOs : pyStartswith other "SETTINGS:" = false)
    (hOkw : other ∉ (["OPEN", "CLOSE", "STATUS", "SETTINGS", "GET_SETTINGS",
                      "WIFI_DISCONNECT", "GET_WIFI"] : List String)) :
    ((WriteValue decode st ("ANGLE:" ++ restOk)).err = none ∧
     (WriteValue decode st ("ANGLE:" ++ restOk)).st.angle = a) ∧
    WriteValue decode st ("ANGLE:" ++ restBad) =
      ⟨st, [], some (.wrapped .invalidValueLength)⟩ ∧
    WriteValue decode st ("CONNECT:" ++ conn) =
      ⟨st, Eff.wifiConnectCmd ⟨s⟩ ⟨p⟩ ::
             send_notification st.notifying "WiFiConnectionData" .wifiInfo,
       none⟩ ∧
    WriteValue decode st ("SETTINGS:" ++ raw) =
      wrapOutcome (update_settings decode st raw) ∧
    (WriteValue decode st "OPEN").err = none ∧
    (WriteValue decode st "CLOSE").err = none ∧
    (WriteValue decode st "STATUS").err = none ∧
    (WriteValue decode st "GET_SETTINGS").err = none ∧
    (WriteValue decode st "WIFI_DISCONNECT").err = none ∧
    (WriteValue decode st "GET_WIFI").err = none ∧
    WriteValue decode st "SETTINGS" =
      ⟨st, [], some (.wrapped .typeErrorMissingArg)⟩ ∧
    WriteValue decode st other =
      ⟨st, [], some (.wrapped (.failed "Invalid command"))⟩ := by
  have hW : ∀ c, WriteValue decode st c = wrapOutcome (writeBody decode st c) :=
    fun c => by rw [WriteValue, if_neg (by simp [hauth])]
  refine ⟨⟨?_, ?_⟩, ?_, ?_, ?_, ?_, ?_, ?_, ?_, ?_, ?_, ?_, ?_⟩
  · rw [hW, writeBody_angle_route, angleCommand_eq st restOk a hOk hstatus]
    rfl
  · rw [hW, writeBody_angle_route, angleCommand_eq st restOk a hOk hstatus]
    rfl
  · rw [hW, writeBody_angle_route]
    unfold angleCommand
    rw [hBad]
    rfl
  · rw [hW, writeBody_connect_route]
    unfold connect_to_wifi
    rw [hConn]
    rfl
  · rw [hW, writeBody_settings_route]
  · rw [hW]
    show (wrapOutcome (set_open st)).err = none
    rw [set_open_eq st hstatus]
    rfl
  · rw [hW]
    show (wrapOutcome (set_close st)).err = none
    rw [set_close_eq st hstatus]
    rfl
  · rw [hW]; rfl
  · rw [hW]; rfl
  · rw [hW]; rfl
  · rw [hW]; rfl
  · rw [hW]; rfl
  · rw [hW]
    simp only [List.mem_cons, List.not_mem_nil, or_false, not_or] at hOkw
    obtain ⟨n1, n2, n3, n4, n5, n6, n7⟩ := hOkw
    simp [writeBody, hOa, hOc, hOs, n1, n2, n3, n4, n5, n6, n7, wrapOutcome]


/-- C6 witness. -/
theorem C6_parser_amended_witness :
    ((WriteValue noDecode authState "ANGLE:90").err = none ∧
     (WriteValue noDecode authState "ANGLE:90").st.angle = 90) ∧
    WriteValue noDecode authState "ANGLE:abc" =
      ⟨authState, [], some (.wrapped .invalidValueLength)⟩ ∧
    WriteValue noDecode authState "CONNECT:net:pa:ss" =
      ⟨authState, Eff.wifiConnectCmd "net" "pa" ::
             send_notification authState.notifying "WiFiConnectionData" .wifiInfo,
       none⟩ ∧
    WriteValue noDecode authState "SETTINGS:x" =
      wrapOutcome (update_settings noDecode authState "x") ∧
    (WriteValue noDecode authState "OPEN").err = none ∧
    (WriteValue noDecode authState "CLOSE").err = none ∧
    (WriteValue noDecode authState "STATUS").err = none ∧
    (WriteValue noDecode authState "GET_SETTINGS").err = none ∧
    (WriteValue noDecode authState "WIFI_DISCONNECT").err = none ∧
    (WriteValue noDecode authState "GET_WIFI").err = none ∧
    WriteValue noDecode authState "SETTINGS" =
      ⟨authState, [], some (.wrapped .typeErrorMissingArg)⟩ ∧
    WriteValue noDecode authState "BOGUS" =
      ⟨authState, [], some (.wrapped (.failed "Invalid command"))⟩ :=
  C6_parser_amended authState noDecode "90" "abc" "net:pa:ss" "x" "BOGUS" 90
    "net".data "pa".data ["ss".data] rfl rfl (by decide) (by decide) (by decide)
    (by decide) (by decide) (by decide) (by decide)

/-- With the device on, `set_open` completes without exception. -/
theorem set_open_err_none (st : DeviceState) (h : st.status = true) :
    (set_open st).err = none := by rw [set_open_eq st h]

/-- With the device on, `set_close` completes without exception. -/
theorem set_close_err_none (st : DeviceState) (h : st.status = true) :
    (set_close st).err = none := by rw [set_close_eq st h]

/-- `set_open` does not change `status`. -/
theorem set_open_st_status (st : DeviceState) (h : st.status = true) :
    (set_open st).st.status = true := by
  rw [set_open_eq st h]; exact h

/-- With the device on and the angle within the settings range, the
servo pulse is emitted. -/
theorem set_servo_angle_effs_in_range (st : DeviceState) (a : Int)
    (h : st.status = true) (h1 : st.settings.minAngle ≤ a)
    (h2 : a ≤ st.settings.maxAngle) :
    (set_servo_angle st a).1 = [Eff.servo (pulse_width a)] := by
  unfold set_servo_angle
  rw [h, if_neg (by simp), if_neg (not_not_intro ⟨h1, h2⟩)]

/-- A triggering reading: the iteration is open, dwell, (close, cooldown
-- when still running at the re-check). -/
theorem sensor_iter_trigger (st : DeviceState) (raw : ℚ) (r2 : Bool)
    (hstatus : st.status = true)
    (htrig : 0 < measure_distance st raw ∧
             measure_distance st raw < (st.settings.detectDistance : ℚ)) :
    sensor_iter st raw r2 =
      if r2 then
        ⟨(set_close (set_open st).st).st,
         (set_open st).effs ++ (set_close (set_open st).st).effs,
         [SensorAct.openCall, SensorAct.sleep 3000,
          SensorAct.closeCall, SensorAct.sleep 500]⟩
      else
        ⟨(set_open st).st, (set_open st).effs,
         [SensorAct.openCall, SensorAct.sleep 3000]⟩ := by
  have hOerr := set_open_err_none st hstatus
  have hOst := set_open_st_status st hstatus
  have hCerr := set_close_err_none (set_open st).st hOst
  unfold sensor_iter
  rw [if_pos htrig]
  dsimp only
  rw [hOerr]
  dsimp only
  cases r2 with
  | true =>
    rw [if_pos rfl, hCerr]
    rfl
  | false =>
    rw [if_neg (by simp)]
    rfl

/-- The sensor loop's state while it runs in the claims' scenarios:
powered on, unsubscribed, unauthenticated (as at process start),
default settings. -/
def c8State : DeviceState :=
  { is_auth := false, status := true, angle := 0, opened := false,
    running := true, notifying := false, settings := defaultSettings }

/-- C8: one `sensor_loop` iteration with the running flag set: a reading
`d` with `0 < d < detectDistance` calls `set_open` exactly once, then —
only if `running` is still set at the re-check — `set_close` exactly
once, with the 3 s dwell between them and the 0.5 s cooldown after; a
reading of `0` or `>= detectDistance` triggers neither and leaves the
state untouched. Concretely, readings `[25, 15, 25]` with
`detectDistance = 20` produce exactly one open followed by one close. -/
theorem C8_sensor_loop (st : DeviceState) (raw : ℚ) (r2 : Bool)
    (hrun : st.running = true) (hstatus : st.status = true) :
    (0 < measure_distance st raw ∧
       measure_distance st raw < (st.settings.detectDistance : ℚ) →
      (sensor_iter st raw r2).acts.count SensorAct.openCall = 1 ∧
      (sensor_iter st raw r2).acts.count SensorAct.closeCall =
        (if r2 then 1 else 0) ∧
      (r2 = true →
        (sensor_iter st raw r2).acts =
          [SensorAct.openCall, SensorAct.sleep 3000,
           SensorAct.closeCall, SensorAct.sleep 500]) ∧
      (r2 = false →
        (sensor_iter st raw r2).acts =
          [SensorAct.openCall, SensorAct.sleep 3000])) ∧
    (¬ (0 < measure_distance st raw ∧
        measure_distance st raw < (st.settings.detectDistance : ℚ)) →
      sensor_iter st raw r2 = ⟨st, [], []⟩) ∧
    (runSensor c8State [25, 15, 25]).acts =
      [SensorAct.openCall, SensorAct.sleep 3000,
       SensorAct.closeCall, SensorAct.sleep 500] := by
  refine ⟨fun htrig => ?_, fun hnot => ?_, ?_⟩
  · cases r2 with
    | true =>
      rw [sensor_iter_trigger st raw true hstatus htrig, if_pos rfl]
      exact ⟨rfl, rfl, fun _ => rfl, fun h => Bool.noConfusion h⟩
    | false =>
      rw [sensor_iter_trigger st raw false hstatus htrig, if_neg (by simp)]
      exact ⟨rfl, rfl, fun h => Bool.noConfusion h, fun _ => rfl⟩
  · unfold sensor_iter
    rw [if_neg hnot]
  · decide

/-- C10: the sensor loop's actuation path is not gated by
authentication: in any unauthenticated state whose measured distance
triggers (which forces `status = true`, since `measure_distance`
short-circuits to `0` when off) and whose settings satisfy
`minAngle <= maxAngle`, the iteration opens and closes the lid — it
mutates `angle` (to `maxAngle`, then `minAngle`) and `opened`, sends
both servo pulses, and hands the `Angle` and `Opened` notifications to
the channel both times. -/
theorem C10_sensor_actuates_unauthenticated (st : DeviceState) (raw : ℚ)
    (hauth : st.is_auth = false) (hrun : st.running = true)
    (hd : 0 < measure_distance st raw ∧
          measure_distance st raw < (st.settings.detectDistance : ℚ))
    (hrange : st.settings.minAngle ≤ st.settings.maxAngle) :
    (sensor_iter st raw true).st =
      { st with angle := st.settings.minAngle, opened := false } ∧
    (sensor_iter st raw true).acts =
      [SensorAct.openCall, SensorAct.sleep 3000,
       SensorAct.closeCall, SensorAct.sleep 500] ∧
    (sensor_iter st raw true).effs =
      [Eff.servo (pulse_width st.settings.maxAngle)] ++
        send_notification st.notifying "Angle" (.i st.settings.maxAngle) ++
        send_notification st.notifying "Opened"
          (.b (decide (st.settings.minAngle < st.settings.maxAngle))) ++
      ([Eff.servo (pulse_width st.settings.minAngle)] ++
        send_notification st.notifying "Angle" (.i st.settings.minAngle) ++
        send_notification st.notifying "Opened" (.b false)) := by
  have hstatus : st.status = true := measure_pos_status st raw hd.1
  have hOst := set_open_st_status st hstatus
  have e1 : decide (st.settings.maxAngle ≥ st.settings.maxAngle ∧
      st.settings.maxAngle > st.settings.minAngle) =
      decide (st.settings.minAngle < st.settings.maxAngle) := by
    rw [decide_eq_decide]; omega
  have e2 : decide (st.settings.maxAngle ≥ st.settings.minAngle ∧
      st.settings.minAngle > st.settings.minAngle) = false :=
    decide_eq_false (fun hc => lt_irrefl _ hc.2)
  rw [sensor_iter_trigger st raw true hstatus hd, if_pos rfl,
      set_close_eq _ hOst, set_open_eq st hstatus]
  dsimp only
  rw [set_servo_angle_effs_in_range { st with angle := st.settings.maxAngle }
        st.settings.maxAngle hstatus hrange le_rfl,
      set_servo_angle_effs_in_range
        { st with
            angle := st.settings.minAngle,
            opened := decide (st.settings.maxAngle ≥ st.settings.maxAngle ∧
                              st.settings.maxAngle > st.settings.minAngle) }
        st.settings.minAngle hstatus le_rfl hrange,
      e1, e2]
  exact ⟨rfl, rfl, rfl⟩

/-- C8 witness. -/
theorem C8_sensor_loop_witness :
    (sensor_iter c8State 15 true).acts.count SensorAct.openCall = 1 ∧
    (sensor_iter c8State 15 true).acts.count SensorAct.closeCall = 1 ∧
    sensor_iter c8State 25 true = ⟨c8State, [], []⟩ ∧
    (runSensor c8State [25, 15, 25]).acts =
      [SensorAct.openCall, SensorAct.sleep 3000,
       SensorAct.closeCall, SensorAct.sleep 500] := by
  have h := C8_sensor_loop c8State 15 true rfl rfl
  have h2 := C8_sensor_loop c8State 25 true rfl rfl
  have htrig : 0 < measure_distance c8State 15 ∧
      measure_distance c8State 15 < (c8State.settings.detectDistance : ℚ) := by
    decide
  have hnot : ¬ (0 < measure_distance c8State 25 ∧
      measure_distance c8State 25 < (c8State.settings.detectDistance : ℚ)) := by
    decide
  obtain ⟨ho, hc, _, _⟩ := h.1 htrig
  exact ⟨ho, by simpa using hc, h2.2.1 hnot, h.2.2⟩

/-- C10 witness. -/
theorem C10_sensor_actuates_unauthenticated_witness :
    (sensor_iter c8State 15 true).st =
      { c8State with angle := 0, opened := false } ∧
    (sensor_iter c8State 15 true).acts =
      [SensorAct.openCall, SensorAct.sleep 3000,
       SensorAct.closeCall, SensorAct.sleep 500] ∧
    (sensor_iter c8State 15 true).effs =
      [Eff.servo 500] ++ [Eff.emit "Angle" (.i 180)] ++
        [Eff.emit "Opened" (.b true)] ++
      ([Eff.servo 2500] ++ [Eff.emit "Angle" (.i 0)] ++
        [Eff.emit "Opened" (.b false)]) :=
  C10_sensor_actuates_unauthenticated c8State 15 rfl rfl (by decide) (by decide)

/-- The intermediate shared states a one-step schedule of the sensor
thread's `set_open` makes observable while a command-path `ANGLE:0` write
is pending. -/
def tornTrace : List DeviceState :=
  runInterleaving authState openProg (angleProg 0) [true]

/-- C9 counterexample: between the sensor thread's `angle = maxAngle`
write and its `opened` recompute, a concurrently scheduled `ReadValue`
observes `angle = 180` with `opened = false` — a torn intermediate
DeviceState in which `opened != (minAngle < angle <= maxAngle)`. No
mutual-exclusion domain exists in the source to prevent this. -/
theorem C9_counterexample_torn_read :
    ∃ stMid, stMid ∈ tornTrace ∧
      ReadValue stMid "ANGLE" = .ok (.i 180) ∧
      ReadValue stMid "OPENED" = .ok (.b false) ∧
      stMid.settings.minAngle = 0 ∧ stMid.settings.maxAngle = 180 ∧
      ¬ stateInv stMid :=
  ⟨{ authState with angle := 180 }, by decide, rfl, rfl,
   rfl, rfl, by decide⟩

/-- C9 amended: the code serializes nothing — Device State is mutated
from both threads at bare attribute granularity with no lock, and there
exists a schedule interleaving the command path's `SetAngle` with the
sensor loop's `Open` under which a concurrent read observes a torn
intermediate state: `angle` already equals `maxAngle` while `opened` is
still `false`. -/
theorem C9_no_mutual_exclusion :
    ∃ sched : List Bool, ∃ stMid,
      stMid ∈ runInterleaving authState openProg (angleProg 0) sched ∧
      ReadValue stMid "ANGLE" = .ok (.i authState.settings.maxAngle) ∧
      ReadValue stMid "OPENED" = .ok (.b false) ∧
      ¬ stateInv stMid :=
  ⟨[true], { authState with angle := 180 }, by decide, rfl,
   rfl, by decide⟩

end NeoBin
